import Mathlib

/-!
Verification development for the roof-estimate calculation engine
(`src/utils/calculations.ts` and `eagleview-types.ts`).

JavaScript numbers are modelled as rationals (`ℚ`); `Math.ceil` / `Math.floor`
become `Int.ceil` / `Int.floor` cast back to `ℚ`.  JavaScript's falsy-coalescing
`||` on numbers is `jsOr` (0 is falsy), nullish `??` on optional values is
`Option.getD` / `Option.orElse`.  Optional (possibly `undefined`) fields are
`Option` types.
-/

unseal Rat.mul Rat.add Rat.sub Rat.inv

/-- JS `toLowerCase` on an ASCII character. -/
def lowerChar (c : Char) : Char :=
  if 'A' ≤ c ∧ c ≤ 'Z' then Char.ofNat (c.toNat + 32) else c

/-- JS `s.toLowerCase()` (ASCII range; the inputs here are ASCII). -/
def toLowerStr (s : String) : String := String.mk (s.data.map lowerChar)

/-- JS `a || b` on numbers: `a` when truthy (non-zero), else `b`. -/
def jsOr (a b : ℚ) : ℚ := if a = 0 then b else a

/-- JS `o?.x || d` where the chain may be `undefined`: `d` when missing or zero. -/
def jsOrOpt (o : Option ℚ) (d : ℚ) : ℚ :=
  match o with
  | none => d
  | some v => jsOr v d

/-- JS `s || d` on strings possibly `undefined`: `d` when missing or empty. -/
def jsOrOptStr (o : Option String) (d : String) : String :=
  match o with
  | none => d
  | some s => if s = "" then d else s

/-- Model of `Math.ceil` on a JS number, on `ℚ`. -/
def jceil (q : ℚ) : ℚ := ((⌈q⌉ : ℤ) : ℚ)

/-- Model of `Math.floor` on a JS number, on `ℚ`. -/
def jfloor (q : ℚ) : ℚ := ((⌊q⌋ : ℤ) : ℚ)

/-! ### Data model (`calculations.ts` interfaces) -/

structure PitchPart where
  pitch : String
  squares : ℚ
deriving DecidableEq

structure RoofMeasurements where
  roofArea : ℚ
  roofAreaRounded : Option ℚ := none
  eavesLength : ℚ := 0
  rakesLength : ℚ := 0
  valleysLength : ℚ := 0
  hipsLength : ℚ := 0
  ridgesLength : ℚ := 0
  pitch : ℚ := 0
  stories : ℚ := 1
  hasTrailerAccess : Bool := true
  hasSecondLayer : Bool := false
  lowPitchArea : ℚ := 0
  hasRidgeVent : Option Bool := none
  thirdStory : Option Bool := none
  handLoadMaterials : Option Bool := none
  pitchBreakdown : Option (List PitchPart) := none
deriving DecidableEq

structure MaterialItem where
  id : String
  itemName : String
  unitOfMeasure : String
  pricePerUnit : ℚ
  category : String
  quantity : ℚ
  totalCost : ℚ
deriving DecidableEq

structure MaterialOrderRule where
  id : String
  materialName : String
  unitOfMeasure : String
  quantityFormula : String
  description : String := ""
  category : String := ""
deriving DecidableEq

structure LaborRate where
  id : String
  conditionType : String
  description : String := ""
  ratePerSquare : Option ℚ := none
  ratePerLinearFoot : Option ℚ := none
deriving DecidableEq

structure LaborItem where
  id : String
  conditionType : String
  description : String
  ratePerSquare : Option ℚ := none
  ratePerLinearFoot : Option ℚ := none
  quantity : ℚ
  totalCost : ℚ
deriving DecidableEq

/-! ### The ridge-vent name test `/\bridge\s*vent\b/` -/

/-- JS regex word character (`\w`). -/
def isWordChar (c : Char) : Bool := c.isAlphanum || c = '_'

/-- Match a literal character sequence, returning the remaining text. -/
def dropLit : List Char → List Char → Option (List Char)
  | [], l => some l
  | p :: ps, c :: cs => if c = p then dropLit ps cs else none
  | _ :: _, [] => none

/-- Drop leading whitespace (JS `\s*`). -/
def dropWs : List Char → List Char
  | [] => []
  | c :: rest => if c.isWhitespace then dropWs rest else c :: rest

/-- Try `ridge\s*vent` at the current position. -/
def ridgeVentAt (l : List Char) : Option (List Char) :=
  match dropLit ['r', 'i', 'd', 'g', 'e'] l with
  | none => none
  | some r1 => dropLit ['v', 'e', 'n', 't'] (dropWs r1)

/-- A word boundary holds after the match: end of text or a non-word char. -/
def boundaryOk : List Char → Bool
  | [] => true
  | c :: _ => !(isWordChar c)

/-- Scan for `\bridge\s*vent\b`; the flag records whether the previous
character was a word character (for the leading `\b`). -/
def hasRidgeVentFrom : Bool → List Char → Bool
  | _, [] => false
  | prevWord, c :: rest =>
    if !prevWord && (match ridgeVentAt (c :: rest) with
        | some r => boundaryOk r
        | none => false) then true
    else hasRidgeVentFrom (isWordChar c) rest

/-- The test `/\bridge\s*vent\b/.test(nameLower)` from `calculateMaterialQuantities`. -/
def isRidgeVentName (s : String) : Bool := hasRidgeVentFrom false s.data

/-! ### `calculateMaterialQuantities` -/

/-- Source expression `Math.max(0, Math.ceil(measurements.roofAreaRounded ?? measurements.roofArea))`. -/
def effectiveSquaresMat (m : RoofMeasurements) : ℚ :=
  max 0 (jceil (m.roofAreaRounded.getD m.roofArea))

/-- The `switch (rule.quantityFormula)` dispatch of `calculateMaterialQuantities`. -/
def materialFormulaQty (m : RoofMeasurements) (f : String) : ℚ :=
  let effectiveSquares := effectiveSquaresMat m
  if f = "roof_area_sq / 3" then jceil (effectiveSquares * 3)
  else if f = "hip_ridge_lf / 30" then jceil ((m.hipsLength + m.ridgesLength) / 30)
  else if f = "ridge_lf / 4" then jceil (m.ridgesLength / 4)
  else if f = "roof_area_sq / 10" then jceil (effectiveSquares / 10)
  else if f = "(eaves_lf + rakes_lf) / 100" then jceil ((m.eavesLength + m.rakesLength) / 100)
  else if f = "(eaves_lf + rakes_lf) / 10" then jceil ((m.eavesLength + m.rakesLength) / 10 + 5)
  else if f = "valleys_lf / 66" then jceil (m.valleysLength / 66)
  else if f = "roof_area_sq / 15" then jceil (effectiveSquaresMat m / 15)
  else if f = "low_pitch_area_sq" then jceil m.lowPitchArea
  else if f = "low_pitch_area_sq / 2" then jceil (m.lowPitchArea / 2)
  else 0

/-- The body of the `rules.forEach` loop: the line pushed for one rule, if any. -/
def ruleLine (m : RoofMeasurements) (rule : MaterialOrderRule) : Option MaterialItem :=
  let nameLower := toLowerStr rule.materialName
  if isRidgeVentName nameLower && !(m.hasRidgeVent.getD false) then none
  else
    let quantity := materialFormulaQty m rule.quantityFormula
    if quantity > 0 then
      some { id := rule.id, itemName := rule.materialName,
             unitOfMeasure := rule.unitOfMeasure, pricePerUnit := 0,
             category := rule.category, quantity := quantity, totalCost := 0 }
    else none

/-- Function `calculateMaterialQuantities` (`calculations.ts`): evaluate every rule in
order, pushing a line exactly when the loop body pushes one. -/
def calculateMaterialQuantities (m : RoofMeasurements)
    (rules : List MaterialOrderRule) : List MaterialItem :=
  rules.filterMap (ruleLine m)

/-! ### `applyMaterialPrices`: name normalization

The source spells the `norm` regexes with doubled backslashes
(`/™|®|\\.|,/g`, `/hip\\s*and\\s*ridge|hip\\s*ridge/g`, `/\\s+/g`, ...).
In a JavaScript regex literal `\\` matches one literal backslash, so e.g.
`\\.` matches a backslash followed by any character (not a period) and
`\\s+` matches a backslash followed by letters `s` (not whitespace).  The
embedding reproduces those semantics exactly. -/

/-- Step `replace(/™|®|\\.|,/g, '')`: drop `™`, `®`, `,` and any
backslash-plus-character pair (regex `.` does not match a line terminator,
so a backslash before a newline survives). -/
def scanGlyphs : List Char → List Char
  | [] => []
  | '™' :: rest => scanGlyphs rest
  | '®' :: rest => scanGlyphs rest
  | ',' :: rest => scanGlyphs rest
  | '\\' :: c :: rest =>
    if c = '\n' ∨ c = '\r' then '\\' :: scanGlyphs (c :: rest) else scanGlyphs rest
  | c :: rest => c :: scanGlyphs rest

/-- Step `replace(/&/g, ' and ')`. -/
def scanAmp : List Char → List Char
  | [] => []
  | '&' :: rest => ' ' :: 'a' :: 'n' :: 'd' :: ' ' :: scanAmp rest
  | c :: rest => c :: scanAmp rest

/-- Drop leading `s` characters (for the doubled-backslash `\\s*`, which is a
literal backslash followed by `s*`). -/
def dropSs : List Char → List Char
  | 's' :: rest => dropSs rest
  | l => l

/-- Generic global replace scanner: at each position try the pattern; on a
match splice in the replacement and continue after the consumed text.  The
fuel is the length of the input, which suffices because every step consumes
at least one character. -/
def scanRepl (tryPat : List Char → Option (List Char)) (repl : List Char) :
    Nat → List Char → List Char
  | 0, l => l
  | _ + 1, [] => []
  | fuel + 1, c :: rest =>
    match tryPat (c :: rest) with
    | some r => repl ++ scanRepl tryPat repl fuel r
    | none => c :: scanRepl tryPat repl fuel rest

/-- Regex `hip\\s*and\\s*ridge` (with literal backslashes). -/
def tryHipAndRidge (l : List Char) : Option (List Char) :=
  match dropLit ['h', 'i', 'p', '\\'] l with
  | none => none
  | some r1 =>
    match dropLit ['a', 'n', 'd', '\\'] (dropSs r1) with
    | none => none
    | some r2 => dropLit ['r', 'i', 'd', 'g', 'e'] (dropSs r2)

/-- Regex `hip\\s*ridge` (with a literal backslash). -/
def tryHipRidgeShort (l : List Char) : Option (List Char) :=
  match dropLit ['h', 'i', 'p', '\\'] l with
  | none => none
  | some r1 => dropLit ['r', 'i', 'd', 'g', 'e'] (dropSs r1)

/-- Regex `hip\\s*and\\s*ridge|hip\\s*ridge`, alternatives in source order. -/
def tryHipRidge (l : List Char) : Option (List Char) :=
  (tryHipAndRidge l).orElse (fun _ => tryHipRidgeShort l)

/-- Regex `drip\\s*edge` (with a literal backslash). -/
def tryDripEdge (l : List Char) : Option (List Char) :=
  match dropLit ['d', 'r', 'i', 'p', '\\'] l with
  | none => none
  | some r1 => dropLit ['e', 'd', 'g', 'e'] (dropSs r1)

/-- Regex `ice\\s*and\\s*water` (with literal backslashes). -/
def tryIceAndWater (l : List Char) : Option (List Char) :=
  match dropLit ['i', 'c', 'e', '\\'] l with
  | none => none
  | some r1 =>
    match dropLit ['a', 'n', 'd', '\\'] (dropSs r1) with
    | none => none
    | some r2 => dropLit ['w', 'a', 't', 'e', 'r'] (dropSs r2)

/-- Regex `ice\\s*water` (with a literal backslash). -/
def tryIceWaterShort (l : List Char) : Option (List Char) :=
  match dropLit ['i', 'c', 'e', '\\'] l with
  | none => none
  | some r1 => dropLit ['w', 'a', 't', 'e', 'r'] (dropSs r1)

/-- Regex `ice\\s*and\\s*water|ice\\s*water`, alternatives in source order. -/
def tryIceWater (l : List Char) : Option (List Char) :=
  (tryIceAndWater l).orElse (fun _ => tryIceWaterShort l)

/-- Regex `synthetic\\s*roofing\\s*underlayment` (with literal backslashes). -/
def trySynthetic (l : List Char) : Option (List Char) :=
  match dropLit ['s', 'y', 'n', 't', 'h', 'e', 't', 'i', 'c', '\\'] l with
  | none => none
  | some r1 =>
    match dropLit ['r', 'o', 'o', 'f', 'i', 'n', 'g', '\\'] (dropSs r1) with
    | none => none
    | some r2 =>
      dropLit ['u', 'n', 'd', 'e', 'r', 'l', 'a', 'y', 'm', 'e', 'n', 't'] (dropSs r2)

/-- Regex `\\s+` (a literal backslash followed by one or more `s`). -/
def tryBackslashS (l : List Char) : Option (List Char) :=
  match l with
  | '\\' :: 's' :: rest => some (dropSs rest)
  | _ => none

/-- Strip leading whitespace from a character list. -/
def trimLeftL : List Char → List Char
  | [] => []
  | c :: rest => if c.isWhitespace then trimLeftL rest else c :: rest

/-- JS `trim()`: strip whitespace from both ends. -/
def trimBoth (l : List Char) : List Char :=
  (trimLeftL (trimLeftL l.reverse).reverse)

/-- The `norm` helper inside `applyMaterialPrices`: lowercase, the six
`replace` calls (with the doubled-backslash regex semantics above), then
`trim()`. -/
def normName (s : String) : String :=
  let l0 := (toLowerStr s).data
  let l1 := scanGlyphs l0
  let l2 := scanAmp l1
  let l3 := scanRepl tryHipRidge ['h', 'i', 'p', ' ', 'r', 'i', 'd', 'g', 'e'] l2.length l2
  let l4 := scanRepl tryDripEdge ['d', 'r', 'i', 'p', ' ', 'e', 'd', 'g', 'e'] l3.length l3
  let l5 := scanRepl tryIceWater ['i', 'c', 'e', ' ', 'w', 'a', 't', 'e', 'r'] l4.length l4
  let l6 := scanRepl trySynthetic
    ['s', 'y', 'n', 't', 'h', 'e', 't', 'i', 'c', ' ',
     'u', 'n', 'd', 'e', 'r', 'l', 'a', 'y', 'm', 'e', 'n', 't'] l5.length l5
  let l7 := scanRepl tryBackslashS [' '] l6.length l6
  String.mk (trimBoth l7)

/-- The `normUnit` helper inside `applyMaterialPrices`. -/
def normUnit (u : String) : String :=
  let m := String.mk (trimBoth (toLowerStr u).data)
  if m = "bdl" then "bundle"
  else if m = "rl" then "roll"
  else if m = "pc" then "piece"
  else if m = "ctn" then "carton"
  else if m = "bx" then "box"
  else if m = "tb" then "tube"
  else if m = "ea" then "each"
  else m

/-! ### `applyMaterialPrices`: scoring and resolution -/

/-- One entry of the price catalog passed to `applyMaterialPrices`. -/
structure PriceInput where
  itemName : String
  pricePerUnit : ℚ
  unitOfMeasure : Option String := none
  category : Option String := none
deriving DecidableEq

/-- Whether `needle` occurs as a contiguous substring of `hay` (JS `includes`). -/
def listPrefixOf : List Char → List Char → Bool
  | [], _ => true
  | _ :: _, [] => false
  | n :: ns, h :: hs => n = h && listPrefixOf ns hs

def isSubstring : List Char → List Char → Bool
  | n, [] => listPrefixOf n []
  | n, h :: hs => listPrefixOf n (h :: hs) || isSubstring n hs

/-- The per-entry score of the matching loop in `applyMaterialPrices`. -/
def scoreEntry (mName mUnit mCat : String) (p : PriceInput) : Int :=
  let pName := normName p.itemName
  let pUnit := normUnit (p.unitOfMeasure.getD "")
  let pCat := toLowerStr (p.category.getD "")
  if pName = mName then 3
  else if pCat ≠ "" ∧ mCat ≠ "" ∧ pCat = mCat ∧ pUnit = mUnit then 2
  else if isSubstring mName.data pName.data || isSubstring pName.data mName.data then 1
  else 0

/-- The `for (const p of prices)` loop: fold keeping the strictly best score,
starting from `best = null`, `bestScore = -1`. -/
def resolveFold (mName mUnit mCat : String) (prices : List PriceInput) :
    Option ℚ × Int :=
  prices.foldl (fun acc p =>
    let score := scoreEntry mName mUnit mCat p
    if score > acc.2 then (some p.pricePerUnit, score) else acc)
    (none, -1)

/-- The `materials.map` body of `applyMaterialPrices`. -/
def applyPriceTo (prices : List PriceInput) (material : MaterialItem) : MaterialItem :=
  if jsOr material.pricePerUnit 0 > 0 then
    { material with totalCost := material.quantity * material.pricePerUnit }
  else
    let mName := normName material.itemName
    let mUnit := normUnit material.unitOfMeasure
    let mCat := toLowerStr material.category
    let best := (resolveFold mName mUnit mCat prices).1
    let pricePerUnit := jsOrOpt best 0
    { material with pricePerUnit := pricePerUnit,
                    totalCost := material.quantity * pricePerUnit }

/-- Function `applyMaterialPrices` (`calculations.ts`). -/
def applyMaterialPrices (materials : List MaterialItem) (prices : List PriceInput) :
    List MaterialItem :=
  materials.map (applyPriceTo prices)

/-! ### `calculateLaborCosts` -/

/-- Source expression `Math.max(0, measurements.roofAreaRounded ?? Math.ceil(measurements.roofArea))`
(note: unlike the materials engine, `roofAreaRounded` is not ceiled here). -/
def effectiveSquaresLab (m : RoofMeasurements) : ℚ :=
  max 0 (m.roofAreaRounded.getD (jceil m.roofArea))

/-- The `defaults` record: per-square default rates. -/
def defaultPs (t : String) : Option ℚ :=
  if t = "Standard Install" then some 95
  else if t = "No Trailer Access" then some 20
  else if t = "Second Story" then some 10
  else if t = "Third Story" then some 40
  else if t = "2nd Layer" then some 15
  else if t = "Hand Load Materials" then some 10
  else if t = "High Pitch 8/12" then some 10
  else if t = "High Pitch 9/12" then some 15
  else if t = "High Pitch 10/12" then some 20
  else if t = "High Pitch 11/12" then some 25
  else if t = "High Pitch 12/12+" then some 30
  else if t = "Mansard Install" then some 350
  else if t = "Excess Weight Dump Fee" then some 750
  else none

/-- The `defaults` record: per-linear-foot default rates. -/
def defaultPlf (t : String) : Option ℚ :=
  if t = "Ridge Vent Install" then some 2 else none

/-- Source expression `laborRates.find(rate => rate.conditionType === t)`. -/
def findRate (rates : List LaborRate) (t : String) : Option LaborRate :=
  rates.find? (fun r => r.conditionType == t)

/-- The repeated per-square push:
`rps = defaults[t].ps ?? e.ratePerSquare ?? 0` and a line with the given
quantity, `totalCost = quantity * rps`. -/
def mkSqItem (t : String) (e : LaborRate) (qty : ℚ) : LaborItem :=
  let rps := ((defaultPs t).orElse (fun _ => e.ratePerSquare)).getD 0
  { id := e.id, conditionType := e.conditionType, description := e.description,
    ratePerSquare := some rps, ratePerLinearFoot := e.ratePerLinearFoot,
    quantity := qty, totalCost := qty * rps }

/-- Base installation cost block. -/
def stdInstallItems (m : RoofMeasurements) (rates : List LaborRate) : List LaborItem :=
  match findRate rates "Standard Install" with
  | some e => [mkSqItem "Standard Install" e (effectiveSquaresLab m)]
  | none => []

/-- Story-based upcharges block (third story wins over second story). -/
def storyItems (m : RoofMeasurements) (rates : List LaborRate) : List LaborItem :=
  if m.thirdStory.getD false then
    match findRate rates "Third Story" with
    | some e => [mkSqItem "Third Story" e (effectiveSquaresLab m)]
    | none => []
  else if m.stories ≥ 2 then
    match findRate rates "Second Story" with
    | some e => [mkSqItem "Second Story" e (effectiveSquaresLab m)]
    | none => []
  else []

/-- The `pitchUpcharges` table. -/
def pitchUpcharges : List (String × String) :=
  [("8/12", "High Pitch 8/12"), ("9/12", "High Pitch 9/12"),
   ("10/12", "High Pitch 10/12"), ("11/12", "High Pitch 11/12"),
   ("12/12+", "High Pitch 12/12+")]

/-- Pitch-based upcharges block: one line per breakdown part whose label
starts with a steep-pitch bucket and whose bucket has a catalog entry. -/
def pitchItems (m : RoofMeasurements) (rates : List LaborRate) : List LaborItem :=
  (m.pitchBreakdown.getD []).filterMap (fun part =>
    match pitchUpcharges.find? (fun u => part.pitch.startsWith u.1) with
    | none => none
    | some u =>
      match findRate rates u.2 with
      | none => none
      | some e =>
        let sq := max 0 (jsOr part.squares 0)
        some (mkSqItem u.2 e sq))

/-- No-trailer-access block. -/
def trailerItems (m : RoofMeasurements) (rates : List LaborRate) : List LaborItem :=
  if m.hasTrailerAccess then []
  else
    match findRate rates "No Trailer Access" with
    | some e => [mkSqItem "No Trailer Access" e (effectiveSquaresLab m)]
    | none => []

/-- Second-layer block. -/
def layerItems (m : RoofMeasurements) (rates : List LaborRate) : List LaborItem :=
  if m.hasSecondLayer then
    match findRate rates "2nd Layer" with
    | some e => [mkSqItem "2nd Layer" e (effectiveSquaresLab m)]
    | none => []
  else []

/-- Ridge-vent installation block (per linear foot). -/
def ridgeVentItems (m : RoofMeasurements) (rates : List LaborRate) : List LaborItem :=
  match findRate rates "Ridge Vent Install" with
  | some e =>
    if m.hasRidgeVent.getD false ∧ m.ridgesLength > 0 then
      let rlf := ((defaultPlf "Ridge Vent Install").orElse
        (fun _ => e.ratePerLinearFoot)).getD 0
      [{ id := e.id, conditionType := e.conditionType, description := e.description,
         ratePerSquare := e.ratePerSquare, ratePerLinearFoot := some rlf,
         quantity := m.ridgesLength, totalCost := m.ridgesLength * rlf }]
    else []
  | none => []

/-- Hand-load-materials block. -/
def handLoadItems (m : RoofMeasurements) (rates : List LaborRate) : List LaborItem :=
  match findRate rates "Hand Load Materials" with
  | some e =>
    if m.handLoadMaterials.getD false then [mkSqItem "Hand Load Materials" e (effectiveSquaresLab m)]
    else []
  | none => []

/-- The always-pushed base dump fee line:
`baseFee = baseDump?.ratePerSquare || baseDump?.ratePerLinearFoot || 450`. -/
def baseDumpLine (rates : List LaborRate) : LaborItem :=
  let bd := findRate rates "Dump Fee"
  let baseFee := jsOrOpt (bd.bind (fun e => e.ratePerSquare))
    (jsOrOpt (bd.bind (fun e => e.ratePerLinearFoot)) 450)
  { id := jsOrOptStr (bd.map (fun e => e.id)) "dump-fee-base",
    conditionType := "Dump Fee",
    description := jsOrOptStr (bd.map (fun e => e.description)) "Standard Dump Fee",
    ratePerSquare := none, ratePerLinearFoot := none,
    quantity := 1, totalCost := baseFee }

/-- Source expression `extraCount = Math.max(0, Math.floor(effectiveSquares / 30))`. -/
def extraDumpCount (m : RoofMeasurements) : ℚ :=
  max 0 (jfloor (effectiveSquaresLab m / 30))

/-- The excess-weight dump fee line (pushed only when `extraCount > 0`):
`perOcc = dumpExtra?.ratePerSquare || dumpExtra?.ratePerLinearFoot || 750`. -/
def extraDumpLine (m : RoofMeasurements) (rates : List LaborRate) : LaborItem :=
  let de := findRate rates "Excess Weight Dump Fee"
  let perOcc := jsOrOpt (de.bind (fun e => e.ratePerSquare))
    (jsOrOpt (de.bind (fun e => e.ratePerLinearFoot)) 750)
  let extraCount := extraDumpCount m
  { id := jsOrOptStr (de.map (fun e => e.id)) "dump-fee-extra",
    conditionType := "Excess Weight Dump Fee",
    description := jsOrOptStr (de.map (fun e => e.description)) "Excess Weight Dump Fee",
    ratePerSquare := none, ratePerLinearFoot := none,
    quantity := extraCount, totalCost := extraCount * perOcc }

/-- The two disposal-fee pushes at the end of `calculateLaborCosts`. -/
def dumpItems (m : RoofMeasurements) (rates : List LaborRate) : List LaborItem :=
  [baseDumpLine rates] ++
    (if extraDumpCount m > 0 then [extraDumpLine m rates] else [])

/-- Function `calculateLaborCosts` (`calculations.ts`): the pushes happen in source
order, so the result is the concatenation of the blocks. -/
def calculateLaborCosts (m : RoofMeasurements) (rates : List LaborRate) :
    List LaborItem :=
  stdInstallItems m rates ++ storyItems m rates ++ pitchItems m rates ++
    trailerItems m rates ++ layerItems m rates ++ ridgeVentItems m rates ++
    handLoadItems m rates ++ dumpItems m rates

/-! ### `calculateTotalCosts` -/

structure CostSummary where
  totalMaterialCost : ℚ
  totalLaborCost : ℚ
  materialTax : ℚ
  subtotal : ℚ
  profit : ℚ
  totalCost : ℚ
  profitMargin : ℚ
deriving DecidableEq

/-- Source expression `Math.max(0.26, Math.min(0.51, contributionX))`. -/
def clampX (x : ℚ) : ℚ := max (26/100) (min (51/100) x)

/-- Function `calculateTotalCosts` (`calculations.ts`). -/
def calculateTotalCosts (materials : List MaterialItem) (labor : List LaborItem)
    (contributionX : ℚ) : CostSummary :=
  let totalMaterialCost := materials.foldl (fun s it => s + it.totalCost) 0
  let totalLaborCost := labor.foldl (fun s it => s + it.totalCost) 0
  let materialTax := totalMaterialCost * (8/100)
  let subtotal := totalMaterialCost + materialTax + totalLaborCost
  let x := clampX contributionX
  let totalCost := if x > 0 then subtotal / x else subtotal
  let profit := totalCost - subtotal
  let profitMargin := if totalCost > 0 then profit / totalCost else 0
  { totalMaterialCost := totalMaterialCost, totalLaborCost := totalLaborCost,
    materialTax := materialTax, subtotal := subtotal, profit := profit,
    totalCost := totalCost, profitMargin := profitMargin }

/-! ### `eagleview-types.ts`: the measurement normalizer -/

structure EagleViewWaste where
  waste_percent : ℚ
  area_sqft : ℚ
  squares : ℚ
  is_suggested : Bool
deriving DecidableEq

structure EagleViewPitch where
  pitch : String
  area_sqft : ℚ
  percent_of_roof : ℚ
deriving DecidableEq

structure StructMeasurements where
  ridges_ft : ℚ := 0
  hips_ft : ℚ := 0
  valleys_ft : ℚ := 0
  rakes_ft : ℚ := 0
  eaves_ft : ℚ := 0
  flashing_ft : ℚ := 0
  step_flashing_ft : ℚ := 0
  drip_edge_ft : ℚ := 0
deriving DecidableEq

structure EagleViewStructure where
  structure_number : ℚ
  total_area_sqft : ℚ := 0
  total_facets : ℚ := 0
  predominant_pitch : String := ""
  complexity : Option String := none
  measurements : StructMeasurements := {}
  pitch_breakdown : List EagleViewPitch := []
  suggested_waste : Option EagleViewWaste := none
  all_waste_calculations : List EagleViewWaste := []
deriving DecidableEq

structure RoofTotals where
  total_area_sqft : ℚ := 0
  total_facets : ℚ := 0
  predominant_pitch : String := ""
  num_stories : String := ""
  ridges_ft : ℚ := 0
  hips_ft : ℚ := 0
  valleys_ft : ℚ := 0
  rakes_ft : ℚ := 0
  eaves_ft : ℚ := 0
  flashing_ft : ℚ := 0
  step_flashing_ft : ℚ := 0
  drip_edge_ft : ℚ := 0
  estimated_attic_sqft : ℚ := 0
deriving DecidableEq

/-- The fields of `EagleViewParserOutput` the normalizer reads. -/
structure ParserOutput where
  roof_measurements : RoofTotals := {}
  pitch_breakdown : List EagleViewPitch := []
  suggested_waste : Option EagleViewWaste := none
  structures : List EagleViewStructure := []
deriving DecidableEq

/-- Function `getStructure1`. -/
def getStructure1 (d : ParserOutput) : Option EagleViewStructure :=
  match d.structures with
  | [] => none
  | s0 :: _ => some ((d.structures.find? (fun s => s.structure_number == 1)).getD s0)

/-- Function `getStructure2`. -/
def getStructure2 (d : ParserOutput) : Option EagleViewStructure :=
  match d.structures with
  | _ :: s1 :: _ => some ((d.structures.find? (fun s => s.structure_number == 2)).getD s1)
  | _ => none

/-- Function `getStructure3`. -/
def getStructure3 (d : ParserOutput) : Option EagleViewStructure :=
  match d.structures with
  | _ :: _ :: s2 :: _ => some ((d.structures.find? (fun s => s.structure_number == 3)).getD s2)
  | _ => none

/-- The record returned by the measurement-selection helpers. -/
structure SelMeasurements where
  total_area_sqft : ℚ
  ridges_ft : ℚ
  hips_ft : ℚ
  valleys_ft : ℚ
  rakes_ft : ℚ
  eaves_ft : ℚ
  flashing_ft : ℚ
  step_flashing_ft : ℚ
  drip_edge_ft : ℚ
  predominant_pitch : String
  suggested_squares : ℚ
  pitch_breakdown : List EagleViewPitch
deriving DecidableEq

/-- Function `getStructure1Measurements`. -/
def getStructure1Measurements (d : ParserOutput) : SelMeasurements :=
  match getStructure1 d with
  | none =>
    { total_area_sqft := d.roof_measurements.total_area_sqft,
      ridges_ft := d.roof_measurements.ridges_ft,
      hips_ft := d.roof_measurements.hips_ft,
      valleys_ft := d.roof_measurements.valleys_ft,
      rakes_ft := d.roof_measurements.rakes_ft,
      eaves_ft := d.roof_measurements.eaves_ft,
      flashing_ft := d.roof_measurements.flashing_ft,
      step_flashing_ft := d.roof_measurements.step_flashing_ft,
      drip_edge_ft := d.roof_measurements.drip_edge_ft,
      predominant_pitch := d.roof_measurements.predominant_pitch,
      suggested_squares := jsOrOpt (d.suggested_waste.map (fun w => w.squares)) 0,
      pitch_breakdown := d.pitch_breakdown }
  | some s1 =>
    { total_area_sqft := s1.total_area_sqft,
      ridges_ft := s1.measurements.ridges_ft,
      hips_ft := s1.measurements.hips_ft,
      valleys_ft := s1.measurements.valleys_ft,
      rakes_ft := s1.measurements.rakes_ft,
      eaves_ft := s1.measurements.eaves_ft,
      flashing_ft := s1.measurements.flashing_ft,
      step_flashing_ft := s1.measurements.step_flashing_ft,
      drip_edge_ft := s1.measurements.drip_edge_ft,
      predominant_pitch := s1.predominant_pitch,
      suggested_squares := ((s1.suggested_waste.map (fun w => w.squares)).orElse
        (fun _ => d.suggested_waste.map (fun w => w.squares))).getD 0,
      pitch_breakdown := s1.pitch_breakdown }

/-- Leading digits (`parseInt` of the regex group `(\d+)`). -/
def digitsVal (l : List Char) : ℕ :=
  l.foldl (fun n c => n * 10 + (c.toNat - '0'.toNat)) 0

/-- The regex `/^(\d+)\s*\/\s*12$/` applied to the trimmed predominant pitch;
returns the parsed numerator, or 0 on no match (`steep ? parseInt(...) : 0`). -/
def steepPitchVal (p : String) : ℕ :=
  let l := trimBoth p.data
  let ds := l.takeWhile Char.isDigit
  let rest := l.dropWhile Char.isDigit
  if ds = [] then 0
  else
    match dropWs rest with
    | '/' :: r2 =>
      match dropWs r2 with
      | ['1', '2'] => digitsVal ds
      | _ => 0
    | _ => 0

/-- The derived waste-adjusted squares used when a structure has no usable
suggested-waste figure: 94% waste for a tiny base, 18% for ≥ 10/12 pitch,
12% baseline. -/
def derivedSquares (s : EagleViewStructure) : ℚ :=
  let baseSquares := jsOr s.total_area_sqft 0 / 100
  let steepVal := steepPitchVal s.predominant_pitch
  let wastePct : ℚ :=
    if baseSquares > 0 ∧ baseSquares < 2 then 94
    else if steepVal ≥ 10 then 18
    else 12
  baseSquares * (1 + wastePct / 100)

/-- A structure's suggested squares with the derived fallback
(`!sq || sq <= 0` triggers derivation), shared by `getCombinedMeasurements`
(structure 2) and `getSelectedMeasurements` (every structure). -/
def structSquaresRaw (s : EagleViewStructure) : ℚ :=
  let sq := (s.suggested_waste.map (fun w => w.squares)).getD 0
  if sq = 0 ∨ sq ≤ 0 then derivedSquares s else sq

/-- Structure 1's squares figure in `getCombinedMeasurements`:
`s1.suggested_waste?.squares ?? data.suggested_waste?.squares ?? 0`
(no derived fallback). -/
def combS1Squares (d : ParserOutput) (s1 : EagleViewStructure) : ℚ :=
  ((s1.suggested_waste.map (fun w => w.squares)).orElse
    (fun _ => d.suggested_waste.map (fun w => w.squares))).getD 0

/-- Insertion-ordered map `set` (JS `Map.set`): update in place, else append. -/
def mapSet (m : List (String × EagleViewPitch)) (k : String) (v : EagleViewPitch) :
    List (String × EagleViewPitch) :=
  match m with
  | [] => [(k, v)]
  | (k0, v0) :: rest => if k0 = k then (k0, v) :: rest else (k0, v0) :: mapSet rest k v

/-- JS `Map.get`. -/
def mapGet (m : List (String × EagleViewPitch)) (k : String) : Option EagleViewPitch :=
  (m.find? (fun kv => kv.1 == k)).map (fun kv => kv.2)

/-- Function `mergePitchBreakdowns`: union by pitch label, summing `area_sqft` on
collision, preserving insertion order. -/
def mergePitchBreakdowns (p1 p2 : List EagleViewPitch) : List EagleViewPitch :=
  let m1 := p1.foldl (fun m p => mapSet m p.pitch p) []
  let m2 := p2.foldl (fun m p =>
    match mapGet m p.pitch with
    | some ex => mapSet m p.pitch { ex with area_sqft := ex.area_sqft + p.area_sqft }
    | none => mapSet m p.pitch p) m1
  m2.map (fun kv => kv.2)

/-- Function `getCombinedMeasurements`. -/
def getCombinedMeasurements (d : ParserOutput) : SelMeasurements :=
  match getStructure1 d, getStructure2 d with
  | some s1, some s2 =>
    let s1Squares := combS1Squares d s1
    let s2Squares := structSquaresRaw s2
    let s1Rounded := jceil (jsOr s1Squares 0)
    let s2Rounded := jceil (jsOr s2Squares 0)
    { total_area_sqft := s1.total_area_sqft + s2.total_area_sqft,
      ridges_ft := s1.measurements.ridges_ft + s2.measurements.ridges_ft,
      hips_ft := s1.measurements.hips_ft + s2.measurements.hips_ft,
      valleys_ft := s1.measurements.valleys_ft + s2.measurements.valleys_ft,
      rakes_ft := s1.measurements.rakes_ft + s2.measurements.rakes_ft,
      eaves_ft := s1.measurements.eaves_ft + s2.measurements.eaves_ft,
      flashing_ft := s1.measurements.flashing_ft + s2.measurements.flashing_ft,
      step_flashing_ft := s1.measurements.step_flashing_ft + s2.measurements.step_flashing_ft,
      drip_edge_ft := s1.measurements.drip_edge_ft + s2.measurements.drip_edge_ft,
      predominant_pitch := s1.predominant_pitch,
      suggested_squares := s1Rounded + s2Rounded,
      pitch_breakdown := mergePitchBreakdowns s1.pitch_breakdown s2.pitch_breakdown }
  | _, _ => getStructure1Measurements d

/-- The `sumSquares` helper of `getSelectedMeasurements`: ceiling of the
suggested-or-derived squares. -/
def sumSquares (s : EagleViewStructure) : ℚ :=
  jceil (jsOr (structSquaresRaw s) 0)

/-- The `structs` list assembled by `getSelectedMeasurements`. -/
def selStructs (d : ParserOutput) (s1 : EagleViewStructure) (include2 include3 : Bool) :
    List EagleViewStructure :=
  [s1] ++ (if include2 then (getStructure2 d).toList else []) ++
    (if include3 then (getStructure3 d).toList else [])

/-- Function `getSelectedMeasurements`. -/
def getSelectedMeasurements (d : ParserOutput) (include2 include3 : Bool) :
    SelMeasurements :=
  match getStructure1 d with
  | none => getStructure1Measurements d
  | some s1 =>
    let structs := selStructs d s1 include2 include3
    if structs.length = 1 then getStructure1Measurements d
    else
      { total_area_sqft := structs.foldl (fun a s => a + jsOr s.total_area_sqft 0) 0,
        ridges_ft := structs.foldl (fun a s => a + jsOr s.measurements.ridges_ft 0) 0,
        hips_ft := structs.foldl (fun a s => a + jsOr s.measurements.hips_ft 0) 0,
        valleys_ft := structs.foldl (fun a s => a + jsOr s.measurements.valleys_ft 0) 0,
        rakes_ft := structs.foldl (fun a s => a + jsOr s.measurements.rakes_ft 0) 0,
        eaves_ft := structs.foldl (fun a s => a + jsOr s.measurements.eaves_ft 0) 0,
        flashing_ft := structs.foldl (fun a s => a + jsOr s.measurements.flashing_ft 0) 0,
        step_flashing_ft := structs.foldl (fun a s => a + jsOr s.measurements.step_flashing_ft 0) 0,
        drip_edge_ft := structs.foldl (fun a s => a + jsOr s.measurements.drip_edge_ft 0) 0,
        predominant_pitch := s1.predominant_pitch,
        suggested_squares := structs.foldl (fun a s => a + sumSquares s) 0,
        pitch_breakdown := mergePitchBreakdowns s1.pitch_breakdown
          ((structs.drop 1).foldl (fun acc st => mergePitchBreakdowns acc st.pitch_breakdown) []) }

/-! ### Basic facts about the embedded operations -/

theorem jceil_pos {q : ℚ} : 0 < jceil q ↔ 0 < q := by
  rw [jceil]
  exact_mod_cast Int.ceil_pos

theorem jceil_zero : jceil 0 = 0 := by
  rw [jceil]
  norm_num

theorem jsOr_zero (a : ℚ) : jsOr a 0 = a := by
  rw [jsOr]
  split <;> simp_all

theorem effectiveSquaresLab_nonneg (m : RoofMeasurements) : 0 ≤ effectiveSquaresLab m :=
  le_max_left 0 _

theorem extraDumpCount_nonneg (m : RoofMeasurements) : 0 ≤ extraDumpCount m :=
  le_max_left 0 _

theorem findRate_some_type {rates : List LaborRate} {t : String} {e : LaborRate}
    (h : findRate rates t = some e) : e.conditionType = t := by
  have h2 : rates.find? (fun r => r.conditionType == t) = some e := h
  have := List.find?_some h2
  simpa using this

theorem findRate_some_mem {rates : List LaborRate} {t : String} {e : LaborRate}
    (h : findRate rates t = some e) : e ∈ rates := by
  exact List.mem_of_find?_eq_some h

theorem findRate_eq_none {rates : List LaborRate} {t : String}
    (h : findRate rates t = none) : ∀ e ∈ rates, e.conditionType ≠ t := by
  intro e he
  have h2 : rates.find? (fun r => r.conditionType == t) = none := h
  have := List.find?_eq_none.mp h2 e he
  simpa using this

theorem mkSqItem_conditionType (t : String) (e : LaborRate) (q : ℚ) :
    (mkSqItem t e q).conditionType = e.conditionType := rfl

theorem mkSqItem_quantity (t : String) (e : LaborRate) (q : ℚ) :
    (mkSqItem t e q).quantity = q := rfl

/-! ### Shape of each `calculateLaborCosts` block -/

theorem mem_stdInstallItems {m : RoofMeasurements} {rates : List LaborRate} {it : LaborItem}
    (h : it ∈ stdInstallItems m rates) :
    ∃ e, findRate rates "Standard Install" = some e ∧
      it = mkSqItem "Standard Install" e (effectiveSquaresLab m) := by
  unfold stdInstallItems at h
  cases hf : findRate rates "Standard Install" with
  | none => rw [hf] at h; simp at h
  | some e => rw [hf] at h; simp at h; exact ⟨e, rfl, h⟩

theorem mem_storyItems {m : RoofMeasurements} {rates : List LaborRate} {it : LaborItem}
    (h : it ∈ storyItems m rates) :
    (it.conditionType = "Third Story" ∨ it.conditionType = "Second Story") ∧
      it.quantity = effectiveSquaresLab m := by
  unfold storyItems at h
  split at h
  · cases hf : findRate rates "Third Story" with
    | none => rw [hf] at h; simp at h
    | some e =>
      rw [hf] at h; simp at h; subst h
      exact ⟨Or.inl (findRate_some_type hf), rfl⟩
  · split at h
    · cases hf : findRate rates "Second Story" with
      | none => rw [hf] at h; simp at h
      | some e =>
        rw [hf] at h; simp at h; subst h
        exact ⟨Or.inr (findRate_some_type hf), rfl⟩
    · simp at h

theorem mem_pitchItems {m : RoofMeasurements} {rates : List LaborRate} {it : LaborItem}
    (h : it ∈ pitchItems m rates) :
    it.conditionType ∈ pitchUpcharges.map Prod.snd ∧ 0 ≤ it.quantity := by
  unfold pitchItems at h
  rw [List.mem_filterMap] at h
  obtain ⟨part, _, hf⟩ := h
  cases hu : pitchUpcharges.find? (fun u => part.pitch.startsWith u.1) with
  | none => simp [hu] at hf
  | some u =>
    cases he : findRate rates u.2 with
    | none => simp [hu, he] at hf
    | some e =>
      simp [hu, he] at hf
      subst hf
      refine ⟨?_, le_max_left 0 _⟩
      rw [mkSqItem_conditionType, findRate_some_type he]
      exact List.mem_map_of_mem Prod.snd (List.mem_of_find?_eq_some hu)

theorem mem_trailerItems {m : RoofMeasurements} {rates : List LaborRate} {it : LaborItem}
    (h : it ∈ trailerItems m rates) :
    it.conditionType = "No Trailer Access" ∧ it.quantity = effectiveSquaresLab m := by
  unfold trailerItems at h
  split at h
  · simp at h
  · cases hf : findRate rates "No Trailer Access" with
    | none => rw [hf] at h; simp at h
    | some e =>
      rw [hf] at h; simp at h; subst h
      exact ⟨findRate_some_type hf, rfl⟩

theorem mem_layerItems {m : RoofMeasurements} {rates : List LaborRate} {it : LaborItem}
    (h : it ∈ layerItems m rates) :
    it.conditionType = "2nd Layer" ∧ it.quantity = effectiveSquaresLab m := by
  unfold layerItems at h
  split at h
  · cases hf : findRate rates "2nd Layer" with
    | none => rw [hf] at h; simp at h
    | some e =>
      rw [hf] at h; simp at h; subst h
      exact ⟨findRate_some_type hf, rfl⟩
  · simp at h

theorem mem_ridgeVentItems {m : RoofMeasurements} {rates : List LaborRate} {it : LaborItem}
    (h : it ∈ ridgeVentItems m rates) :
    it.conditionType = "Ridge Vent Install" ∧ it.quantity = m.ridgesLength ∧
      0 < m.ridgesLength := by
  unfold ridgeVentItems at h
  cases hf : findRate rates "Ridge Vent Install" with
  | none => rw [hf] at h; simp at h
  | some e =>
    rw [hf] at h
    simp at h
    obtain ⟨hcond, hit⟩ := h
    subst hit
    exact ⟨findRate_some_type hf, rfl, hcond.2⟩

theorem mem_handLoadItems {m : RoofMeasurements} {rates : List LaborRate} {it : LaborItem}
    (h : it ∈ handLoadItems m rates) :
    it.conditionType = "Hand Load Materials" ∧ it.quantity = effectiveSquaresLab m := by
  unfold handLoadItems at h
  cases hf : findRate rates "Hand Load Materials" with
  | none => rw [hf] at h; simp at h
  | some e =>
    rw [hf] at h
    simp at h
    obtain ⟨hcond, hit⟩ := h
    subst hit
    exact ⟨findRate_some_type hf, rfl⟩

theorem mem_dumpItems {m : RoofMeasurements} {rates : List LaborRate} {it : LaborItem}
    (h : it ∈ dumpItems m rates) :
    it = baseDumpLine rates ∨ (it = extraDumpLine m rates ∧ 0 < extraDumpCount m) := by
  unfold dumpItems at h
  rw [List.mem_append] at h
  cases h with
  | inl h => simp at h; exact Or.inl h
  | inr h =>
    split at h
    · simp at h
      rename_i hpos
      exact Or.inr ⟨h, hpos⟩
    · simp at h

theorem baseDumpLine_conditionType (rates : List LaborRate) :
    (baseDumpLine rates).conditionType = "Dump Fee" := rfl

theorem baseDumpLine_quantity (rates : List LaborRate) :
    (baseDumpLine rates).quantity = 1 := rfl

theorem extraDumpLine_conditionType (m : RoofMeasurements) (rates : List LaborRate) :
    (extraDumpLine m rates).conditionType = "Excess Weight Dump Fee" := rfl

theorem extraDumpLine_quantity (m : RoofMeasurements) (rates : List LaborRate) :
    (extraDumpLine m rates).quantity = extraDumpCount m := rfl

theorem filter_eq_nil_of_type {l : List LaborItem} {t : String}
    (h : ∀ it ∈ l, it.conditionType ≠ t) :
    l.filter (fun it => it.conditionType == t) = [] := by
  rw [List.filter_eq_nil_iff]
  intro a ha
  simpa using h a ha

/-- Only the two dump pushes can produce a `Dump Fee` / `Excess Weight Dump
Fee` typed line; all other blocks carry the condition type of a catalog entry
found by a different type string. -/
theorem filter_nonDump_sections (m : RoofMeasurements) (rates : List LaborRate)
    (t : String) (hstd : t ≠ "Standard Install") (h3 : t ≠ "Third Story")
    (h2 : t ≠ "Second Story") (hpitch : ∀ u ∈ pitchUpcharges, u.2 ≠ t)
    (htr : t ≠ "No Trailer Access") (hly : t ≠ "2nd Layer")
    (hrv : t ≠ "Ridge Vent Install") (hhl : t ≠ "Hand Load Materials") :
    (calculateLaborCosts m rates).filter (fun it => it.conditionType == t) =
      (dumpItems m rates).filter (fun it => it.conditionType == t) := by
  unfold calculateLaborCosts
  simp only [List.filter_append]
  have e1 : (stdInstallItems m rates).filter (fun it => it.conditionType == t) = [] :=
    filter_eq_nil_of_type (fun it hit => by
      obtain ⟨e, he, hq⟩ := mem_stdInstallItems hit
      subst hq
      rw [mkSqItem_conditionType, findRate_some_type he]
      exact fun hc => hstd hc.symm)
  have e2 : (storyItems m rates).filter (fun it => it.conditionType == t) = [] :=
    filter_eq_nil_of_type (fun it hit => by
      rcases (mem_storyItems hit).1 with h | h <;> rw [h]
      · exact fun hc => h3 hc.symm
      · exact fun hc => h2 hc.symm)
  have e3 : (pitchItems m rates).filter (fun it => it.conditionType == t) = [] :=
    filter_eq_nil_of_type (fun it hit => by
      have hmem := (mem_pitchItems hit).1
      rw [List.mem_map] at hmem
      obtain ⟨u, hu, hq⟩ := hmem
      rw [← hq]
      exact fun hc => hpitch u hu hc)
  have e4 : (trailerItems m rates).filter (fun it => it.conditionType == t) = [] :=
    filter_eq_nil_of_type (fun it hit => by
      rw [(mem_trailerItems hit).1]
      exact fun hc => htr hc.symm)
  have e5 : (layerItems m rates).filter (fun it => it.conditionType == t) = [] :=
    filter_eq_nil_of_type (fun it hit => by
      rw [(mem_layerItems hit).1]
      exact fun hc => hly hc.symm)
  have e6 : (ridgeVentItems m rates).filter (fun it => it.conditionType == t) = [] :=
    filter_eq_nil_of_type (fun it hit => by
      rw [(mem_ridgeVentItems hit).1]
      exact fun hc => hrv hc.symm)
  have e7 : (handLoadItems m rates).filter (fun it => it.conditionType == t) = [] :=
    filter_eq_nil_of_type (fun it hit => by
      rw [(mem_handLoadItems hit).1]
      exact fun hc => hhl hc.symm)
  rw [e1, e2, e3, e4, e5, e6, e7]
  simp

theorem filter_labor_dumpFee (m : RoofMeasurements) (rates : List LaborRate) :
    (calculateLaborCosts m rates).filter (fun it => it.conditionType == "Dump Fee") =
      [baseDumpLine rates] := by
  rw [filter_nonDump_sections m rates "Dump Fee" (by decide) (by decide) (by decide)
    (by decide) (by decide) (by decide) (by decide) (by decide)]
  unfold dumpItems
  rw [List.filter_append]
  have hb : ([baseDumpLine rates]).filter (fun it => it.conditionType == "Dump Fee") =
      [baseDumpLine rates] := by
    simp [List.filter, baseDumpLine_conditionType]
  have hx : ((if extraDumpCount m > 0 then [extraDumpLine m rates] else []).filter
      (fun it => it.conditionType == "Dump Fee")) = [] := by
    split <;> simp [List.filter, extraDumpLine_conditionType]
  rw [hb, hx]
  simp

theorem filter_labor_excessFee (m : RoofMeasurements) (rates : List LaborRate) :
    (calculateLaborCosts m rates).filter
        (fun it => it.conditionType == "Excess Weight Dump Fee") =
      if extraDumpCount m > 0 then [extraDumpLine m rates] else [] := by
  rw [filter_nonDump_sections m rates "Excess Weight Dump Fee" (by decide) (by decide)
    (by decide) (by decide) (by decide) (by decide) (by decide) (by decide)]
  unfold dumpItems
  rw [List.filter_append]
  have hb : ([baseDumpLine rates]).filter
      (fun it => it.conditionType == "Excess Weight Dump Fee") = [] := by
    simp [List.filter, baseDumpLine_conditionType]
  have hx : ((if extraDumpCount m > 0 then [extraDumpLine m rates] else []).filter
      (fun it => it.conditionType == "Excess Weight Dump Fee")) =
      (if extraDumpCount m > 0 then [extraDumpLine m rates] else []) := by
    split <;> simp [List.filter, extraDumpLine_conditionType]
  rw [hb, hx]
  simp

theorem jfloor_nonneg {q : ℚ} (h : 0 ≤ q) : 0 ≤ jfloor q := by
  rw [jfloor]
  exact_mod_cast Int.floor_nonneg.mpr h

theorem extraDumpCount_eq (m : RoofMeasurements) :
    extraDumpCount m = jfloor (effectiveSquaresLab m / 30) := by
  rw [extraDumpCount]
  exact max_eq_right (jfloor_nonneg (div_nonneg (effectiveSquaresLab_nonneg m) (by norm_num)))

/-! ### Claim C2 and C7 -/

/-- A labor line whose extended cost alone makes the subtotal 1000. -/
def laborExample : LaborItem :=
  { id := "labor-subtotal", conditionType := "Standard Install", description := "",
    quantity := 1, totalCost := 1000 }

/-- Example measurement sets whose effective squares are 29, 30 and 61. -/
def mSq29 : RoofMeasurements := { roofArea := 29 }

def mSq30 : RoofMeasurements := { roofArea := 30 }

def mSq61 : RoofMeasurements := { roofArea := 61 }

/-- Claim C2: `calculateTotalCosts` returns `materialTax = totalMaterialCost × 0.08`,
`subtotal = totalMaterialCost + materialTax + totalLaborCost`, clamps the
contribution fraction into [0.26, 0.51] before use, and returns
`totalCost = subtotal / x` for the clamped `x`; for subtotal 1000 and clamped
fraction 0.40 it yields totalCost 2500, profit 1500 and profitMargin 0.60. -/
theorem claim_C2 (materials : List MaterialItem) (labor : List LaborItem) (cx : ℚ) :
    ((calculateTotalCosts materials labor cx).materialTax =
      (calculateTotalCosts materials labor cx).totalMaterialCost * (8/100)) ∧
    ((calculateTotalCosts materials labor cx).subtotal =
      (calculateTotalCosts materials labor cx).totalMaterialCost +
        (calculateTotalCosts materials labor cx).materialTax +
        (calculateTotalCosts materials labor cx).totalLaborCost) ∧
    (26/100 ≤ clampX cx ∧ clampX cx ≤ 51/100) ∧
    ((calculateTotalCosts materials labor cx).totalCost =
      (calculateTotalCosts materials labor cx).subtotal / clampX cx) ∧
    ((calculateTotalCosts [] [laborExample] (40/100)).subtotal = 1000 ∧
      clampX (40/100) = 40/100 ∧
      (calculateTotalCosts [] [laborExample] (40/100)).totalCost = 2500 ∧
      (calculateTotalCosts [] [laborExample] (40/100)).profit = 1500 ∧
      (calculateTotalCosts [] [laborExample] (40/100)).profitMargin = 60/100) := by
  have hx : 0 < clampX cx :=
    lt_of_lt_of_le (by norm_num) (le_max_left (26/100) (min (51/100) cx))
  refine ⟨rfl, rfl, ⟨le_max_left _ _, max_le (by norm_num) (min_le_left _ _)⟩, ?_, ?_⟩
  · simp only [calculateTotalCosts]
    rw [if_pos hx]
  · exact ⟨by decide, by decide, by decide, by decide, by decide⟩

/-- Claim C7: `calculateLaborCosts` always emits exactly one base disposal-fee
line (condition type `Dump Fee`) with quantity 1, and emits an excess-weight
fee line with quantity `floor(effectiveSquares / 30)` exactly when that value
is positive; effective squares 29 gives no excess line, 30 gives one
occurrence, 61 gives two. -/
theorem claim_C7 (m : RoofMeasurements) (rates : List LaborRate) :
    ((calculateLaborCosts m rates).filter
        (fun it => it.conditionType == "Dump Fee")).map (fun it => it.quantity) = [1] ∧
    ((calculateLaborCosts m rates).filter
        (fun it => it.conditionType == "Excess Weight Dump Fee")).map
          (fun it => it.quantity) =
      (if 0 < jfloor (effectiveSquaresLab m / 30) then [jfloor (effectiveSquaresLab m / 30)]
       else []) ∧
    effectiveSquaresLab mSq29 = 29 ∧
    ((calculateLaborCosts mSq29 rates).filter
        (fun it => it.conditionType == "Excess Weight Dump Fee")).map
          (fun it => it.quantity) = [] ∧
    effectiveSquaresLab mSq30 = 30 ∧
    ((calculateLaborCosts mSq30 rates).filter
        (fun it => it.conditionType == "Excess Weight Dump Fee")).map
          (fun it => it.quantity) = [1] ∧
    effectiveSquaresLab mSq61 = 61 ∧
    ((calculateLaborCosts mSq61 rates).filter
        (fun it => it.conditionType == "Excess Weight Dump Fee")).map
          (fun it => it.quantity) = [2] := by
  refine ⟨?_, ?_, by decide, ?_, by decide, ?_, by decide, ?_⟩
  · rw [filter_labor_dumpFee]
    simp [baseDumpLine_quantity]
  · have hcount := extraDumpCount_eq m
    rw [filter_labor_excessFee]
    by_cases hq : 0 < jfloor (effectiveSquaresLab m / 30)
    · rw [if_pos (by rw [hcount]; exact hq), if_pos hq]
      simp [extraDumpLine_quantity, hcount]
    · rw [if_neg (by rw [hcount]; exact hq), if_neg hq]
      simp
  · rw [filter_labor_excessFee, if_neg (by decide)]
    simp
  · rw [filter_labor_excessFee, if_pos (by decide)]
    simp [extraDumpLine_quantity]
    decide
  · rw [filter_labor_excessFee, if_pos (by decide)]
    simp [extraDumpLine_quantity]
    decide

/-! ### Claim C10 -/

/-- A catalog whose dump-fee entry explicitly sets both rates to 0. -/
def ratesZeroDump : List LaborRate :=
  [{ id := "d0", conditionType := "Dump Fee", description := "zeroed",
     ratePerSquare := some 0, ratePerLinearFoot := some 0 }]

/-- Claim C10: the base `Dump Fee` line (the unique such line of the output)
bills the catalog rate when it is non-zero and the built-in 450 otherwise —
in particular a catalog entry that sets the rate to 0 is billed at 450 because
the rates are coalesced with the falsy `||` operator; likewise the
excess-weight per-occurrence fee falls back to 750 when the catalog rate is
missing or 0. -/
theorem claim_C10 (m : RoofMeasurements) (rates : List LaborRate) :
    ((calculateLaborCosts m rates).filter (fun it => it.conditionType == "Dump Fee") =
      [baseDumpLine rates]) ∧
    (findRate rates "Dump Fee" = none → (baseDumpLine rates).totalCost = 450) ∧
    (∀ e, findRate rates "Dump Fee" = some e →
      (e.ratePerSquare = none ∨ e.ratePerSquare = some 0) →
      (e.ratePerLinearFoot = none ∨ e.ratePerLinearFoot = some 0) →
      (baseDumpLine rates).totalCost = 450) ∧
    (∀ e r, findRate rates "Dump Fee" = some e → e.ratePerSquare = some r → r ≠ 0 →
      (baseDumpLine rates).totalCost = r) ∧
    (findRate rates "Excess Weight Dump Fee" = none →
      (extraDumpLine m rates).totalCost = extraDumpCount m * 750) ∧
    (∀ e, findRate rates "Excess Weight Dump Fee" = some e →
      (e.ratePerSquare = none ∨ e.ratePerSquare = some 0) →
      (e.ratePerLinearFoot = none ∨ e.ratePerLinearFoot = some 0) →
      (extraDumpLine m rates).totalCost = extraDumpCount m * 750) := by
  refine ⟨filter_labor_dumpFee m rates, ?_, ?_, ?_, ?_, ?_⟩
  · intro h
    simp [baseDumpLine, h, jsOrOpt]
  · intro e he hps hplf
    rcases hps with hps | hps <;> rcases hplf with hplf | hplf <;>
      simp [baseDumpLine, he, hps, hplf, jsOrOpt, jsOr]
  · intro e r he hr hne
    simp [baseDumpLine, he, hr, jsOrOpt, jsOr, hne]
  · intro h
    simp [extraDumpLine, h, jsOrOpt]
  · intro e he hps hplf
    rcases hps with hps | hps <;> rcases hplf with hplf | hplf <;>
      simp [extraDumpLine, he, hps, hplf, jsOrOpt, jsOr]

/-- Witness for C10 at a concrete catalog: a dump-fee entry with rate 0 is
billed 450, and the excess fee falls back to 750 per occurrence. -/
theorem claim_C10_witness :
    (baseDumpLine ratesZeroDump).totalCost = 450 ∧
      (extraDumpLine mSq61 ratesZeroDump).totalCost = extraDumpCount mSq61 * 750 := by
  refine ⟨?_, ?_⟩
  · exact (claim_C10 mSq61 ratesZeroDump).2.2.1
      { id := "d0", conditionType := "Dump Fee", description := "zeroed",
        ratePerSquare := some 0, ratePerLinearFoot := some 0 }
      (by decide) (Or.inr (by decide)) (Or.inr (by decide))
  · exact (claim_C10 mSq61 ratesZeroDump).2.2.2.2.1 (by decide)

/-! ### Claim C3 -/

/-- Decomposition: any output line typed `Standard Install` comes from the
base-install block. -/
theorem stdTyped_decomp (m : RoofMeasurements) (rates : List LaborRate) :
    ∀ it ∈ calculateLaborCosts m rates, it.conditionType = "Standard Install" →
      ∃ e, findRate rates "Standard Install" = some e ∧
        it = mkSqItem "Standard Install" e (effectiveSquaresLab m) := by
  intro it hit htype
  unfold calculateLaborCosts at hit
  simp only [List.mem_append] at hit
  rcases hit with ((((((h | h) | h) | h) | h) | h) | h) | h
  · exact mem_stdInstallItems h
  · rcases (mem_storyItems h).1 with h2 | h2 <;> rw [htype] at h2 <;>
      exact absurd h2 (by decide)
  · have h2 := (mem_pitchItems h).1
    rw [htype] at h2
    exact absurd h2 (by decide)
  · have h2 := (mem_trailerItems h).1
    rw [htype] at h2
    exact absurd h2 (by decide)
  · have h2 := (mem_layerItems h).1
    rw [htype] at h2
    exact absurd h2 (by decide)
  · have h2 := (mem_ridgeVentItems h).1
    rw [htype] at h2
    exact absurd h2 (by decide)
  · have h2 := (mem_handLoadItems h).1
    rw [htype] at h2
    exact absurd h2 (by decide)
  · cases mem_dumpItems h with
    | inl h2 =>
      rw [h2, baseDumpLine_conditionType] at htype
      exact absurd htype (by decide)
    | inr h2 =>
      rw [h2.1, extraDumpLine_conditionType] at htype
      exact absurd htype (by decide)

/-- Claim C3 (as amended): a `Standard Install` line is emitted exactly when
the catalog contains a `Standard Install` entry (it is not emitted from the
built-in defaults when the catalog omits the type); when emitted its quantity
is the effective squares and its rate is the built-in default 95. -/
theorem claim_C3 (m : RoofMeasurements) (rates : List LaborRate) :
    ((∃ e ∈ rates, e.conditionType = "Standard Install") ↔
      ∃ it ∈ calculateLaborCosts m rates, it.conditionType = "Standard Install") ∧
    (∀ it ∈ calculateLaborCosts m rates, it.conditionType = "Standard Install" →
      it.quantity = effectiveSquaresLab m ∧ it.ratePerSquare = some 95) := by
  constructor
  · constructor
    · rintro ⟨e, he, ht⟩
      have hsome : (rates.find? (fun r => r.conditionType == "Standard Install")).isSome := by
        rw [List.find?_isSome]
        exact ⟨e, he, by simp [ht]⟩
      obtain ⟨e2, he2⟩ := Option.isSome_iff_exists.mp hsome
      have hf : findRate rates "Standard Install" = some e2 := he2
      have hstd : stdInstallItems m rates =
          [mkSqItem "Standard Install" e2 (effectiveSquaresLab m)] := by
        unfold stdInstallItems
        rw [hf]
      refine ⟨mkSqItem "Standard Install" e2 (effectiveSquaresLab m), ?_, ?_⟩
      · unfold calculateLaborCosts
        rw [hstd]
        simp
      · rw [mkSqItem_conditionType, findRate_some_type hf]
    · rintro ⟨it, hit, htype⟩
      obtain ⟨e, he, _⟩ := stdTyped_decomp m rates it hit htype
      exact ⟨e, findRate_some_mem he, findRate_some_type he⟩
  · intro it hit htype
    obtain ⟨e, he, hiteq⟩ := stdTyped_decomp m rates it hit htype
    subst hiteq
    exact ⟨rfl, rfl⟩

/-- A one-entry catalog holding only a `Standard Install` rate. -/
def stdEntry : LaborRate := { id := "std", conditionType := "Standard Install" }

/-- Witness for C3: with a `Standard Install` entry present, its line is in
the output with quantity 29 and the default rate 95. -/
theorem claim_C3_witness :
    (mkSqItem "Standard Install" stdEntry (effectiveSquaresLab mSq29)).quantity =
        effectiveSquaresLab mSq29 ∧
      (mkSqItem "Standard Install" stdEntry (effectiveSquaresLab mSq29)).ratePerSquare =
        some 95 :=
  (claim_C3 mSq29 [stdEntry]).2
    (mkSqItem "Standard Install" stdEntry (effectiveSquaresLab mSq29))
    (by decide) (by decide)

/-! ### Claim C9 -/

/-- Claim C9 (as amended): measurement fields are not clamped — a formula whose
value is ≤ 0 simply emits no line — but no emitted material line has a
non-positive quantity and no emitted labor line has a negative quantity. -/
theorem claim_C9 (m : RoofMeasurements) (rules : List MaterialOrderRule)
    (rates : List LaborRate) :
    (∀ it ∈ calculateMaterialQuantities m rules, 0 < it.quantity) ∧
    (∀ it ∈ calculateLaborCosts m rates, 0 ≤ it.quantity) := by
  constructor
  · intro it hit
    rw [calculateMaterialQuantities, List.mem_filterMap] at hit
    obtain ⟨rule, _, hr⟩ := hit
    simp only [ruleLine] at hr
    split at hr
    · simp at hr
    · split at hr
      · rename_i hq
        simp at hr
        subst hr
        exact hq
      · simp at hr
  · intro it hit
    unfold calculateLaborCosts at hit
    simp only [List.mem_append] at hit
    rcases hit with ((((((h | h) | h) | h) | h) | h) | h) | h
    · obtain ⟨e, _, hq⟩ := mem_stdInstallItems h
      rw [hq, mkSqItem_quantity]
      exact effectiveSquaresLab_nonneg m
    · rw [(mem_storyItems h).2]
      exact effectiveSquaresLab_nonneg m
    · exact (mem_pitchItems h).2
    · rw [(mem_trailerItems h).2]
      exact effectiveSquaresLab_nonneg m
    · rw [(mem_layerItems h).2]
      exact effectiveSquaresLab_nonneg m
    · obtain ⟨_, hq, hpos⟩ := mem_ridgeVentItems h
      rw [hq]
      exact le_of_lt hpos
    · rw [(mem_handLoadItems h).2]
      exact effectiveSquaresLab_nonneg m
    · cases mem_dumpItems h with
      | inl h2 =>
        rw [h2, baseDumpLine_quantity]
        norm_num
      | inr h2 =>
        rw [h2.1, extraDumpLine_quantity]
        exact extraDumpCount_nonneg m

/-- Measurements with a negative hips length. -/
def mNeg : RoofMeasurements := { roofArea := 10, hipsLength := -100, ridgesLength := 40 }

/-- The hip/ridge material rule. -/
def ruleHipRidge : MaterialOrderRule :=
  { id := "hr", materialName := "Hip and Ridge Shingles", unitOfMeasure := "bdl",
    quantityFormula := "hip_ridge_lf / 30" }

/-- Counterexample to C9 as stated: with hips = −100 and ridges = 40 the code
does not clamp the fields — the hip/ridge formula evaluates to
ceil(−60/30) = −2 and no line is emitted at all, whereas the claim requires a
line with quantity ceil((0 + 40)/30) = 2. -/
theorem claim_C9_counterexample :
    calculateMaterialQuantities mNeg [ruleHipRidge] = [] ∧
      materialFormulaQty mNeg "hip_ridge_lf / 30" = -2 ∧
      jceil ((0 + 40) / 30) = 2 :=
  ⟨by decide, by decide, by decide⟩

/-- A one-square measurement set. -/
def mOne : RoofMeasurements := { roofArea := 1 }

/-- The shingle-bundles material rule. -/
def ruleBundles : MaterialOrderRule :=
  { id := "b", materialName := "Shingles", unitOfMeasure := "bdl",
    quantityFormula := "roof_area_sq / 3" }

/-- Witness for C9 at concrete inputs: the emitted bundle line has positive
quantity and the base dump line has non-negative quantity. -/
theorem claim_C9_witness :
    0 < ({ id := "b", itemName := "Shingles", unitOfMeasure := "bdl", pricePerUnit := 0,
           category := "", quantity := 3, totalCost := 0 } : MaterialItem).quantity ∧
      0 ≤ (baseDumpLine []).quantity :=
  ⟨(claim_C9 mOne [ruleBundles] []).1 _ (by decide),
   (claim_C9 mOne [ruleBundles] []).2 (baseDumpLine []) (by decide)⟩

/-! ### Claim C1 -/

/-- Claim-side effective squares, following the claim's wording: the ceiling
of the waste-rounded figure when supplied, else of the raw area. -/
def specEffectiveSquares (m : RoofMeasurements) : ℚ :=
  jceil (m.roofAreaRounded.getD m.roofArea)

/-- Claim-side quantity table of spec §4.2: `some` of the table's ceiling
formula for the ten known identifiers, `none` for an unrecognized one. -/
def specFormulaQty (m : RoofMeasurements) (f : String) : Option ℚ :=
  if f = "roof_area_sq / 3" then some (jceil (specEffectiveSquares m * 3))
  else if f = "hip_ridge_lf / 30" then some (jceil ((m.hipsLength + m.ridgesLength) / 30))
  else if f = "ridge_lf / 4" then some (jceil (m.ridgesLength / 4))
  else if f = "roof_area_sq / 10" then some (jceil (specEffectiveSquares m / 10))
  else if f = "(eaves_lf + rakes_lf) / 100" then
    some (jceil ((m.eavesLength + m.rakesLength) / 100))
  else if f = "(eaves_lf + rakes_lf) / 10" then
    some (jceil ((m.eavesLength + m.rakesLength) / 10 + 5))
  else if f = "valleys_lf / 66" then some (jceil (m.valleysLength / 66))
  else if f = "roof_area_sq / 15" then some (jceil (specEffectiveSquares m / 15))
  else if f = "low_pitch_area_sq" then some (jceil m.lowPitchArea)
  else if f = "low_pitch_area_sq / 2" then some (jceil (m.lowPitchArea / 2))
  else none

/-- Claim-side per-rule line (C1 as amended): a rule whose material name
matches the ridge-vent pattern is skipped when the ridge-vent flag is unset;
otherwise a line is emitted iff the identifier is recognized and its table
quantity is positive. -/
def specRuleLine (m : RoofMeasurements) (rule : MaterialOrderRule) :
    Option MaterialItem :=
  if isRidgeVentName (toLowerStr rule.materialName) && !(m.hasRidgeVent.getD false) then
    none
  else
    (specFormulaQty m rule.quantityFormula).bind (fun q =>
      if 0 < q then
        some { id := rule.id, itemName := rule.materialName,
               unitOfMeasure := rule.unitOfMeasure, pricePerUnit := 0,
               category := rule.category, quantity := q, totalCost := 0 }
      else none)

theorem jceil_not_pos {q : ℚ} (h : q ≤ 0) : ¬ 0 < jceil q := by
  rw [jceil_pos]
  exact not_lt.mpr h

/-- The clamped effective squares agree with the unclamped claim-side figure
whenever the latter is non-negative; otherwise the bundle branch emits
nothing either way. -/
theorem eff_branch_mul3 (m : RoofMeasurements) (mk : ℚ → MaterialItem) :
    (if 0 < jceil (effectiveSquaresMat m * 3) then
        some (mk (jceil (effectiveSquaresMat m * 3))) else none) =
      (if 0 < jceil (specEffectiveSquares m * 3) then
        some (mk (jceil (specEffectiveSquares m * 3))) else none) := by
  rcases le_or_lt 0 (specEffectiveSquares m) with hs | hs
  · rw [show effectiveSquaresMat m = specEffectiveSquares m from max_eq_right hs]
  · rw [show effectiveSquaresMat m = 0 from max_eq_left hs.le,
      if_neg (by simp [jceil_zero]),
      if_neg (jceil_not_pos (mul_nonpos_iff.mpr (Or.inr ⟨hs.le, by norm_num⟩)))]

theorem eff_branch_div10 (m : RoofMeasurements) (mk : ℚ → MaterialItem) :
    (if 0 < jceil (effectiveSquaresMat m / 10) then
        some (mk (jceil (effectiveSquaresMat m / 10))) else none) =
      (if 0 < jceil (specEffectiveSquares m / 10) then
        some (mk (jceil (specEffectiveSquares m / 10))) else none) := by
  rcases le_or_lt 0 (specEffectiveSquares m) with hs | hs
  · rw [show effectiveSquaresMat m = specEffectiveSquares m from max_eq_right hs]
  · rw [show effectiveSquaresMat m = 0 from max_eq_left hs.le,
      if_neg (by simp [jceil_zero]),
      if_neg (jceil_not_pos (div_nonpos_iff.mpr (Or.inr ⟨hs.le, by norm_num⟩)))]

theorem eff_branch_div15 (m : RoofMeasurements) (mk : ℚ → MaterialItem) :
    (if 0 < jceil (effectiveSquaresMat m / 15) then
        some (mk (jceil (effectiveSquaresMat m / 15))) else none) =
      (if 0 < jceil (specEffectiveSquares m / 15) then
        some (mk (jceil (specEffectiveSquares m / 15))) else none) := by
  rcases le_or_lt 0 (specEffectiveSquares m) with hs | hs
  · rw [show effectiveSquaresMat m = specEffectiveSquares m from max_eq_right hs]
  · rw [show effectiveSquaresMat m = 0 from max_eq_left hs.le,
      if_neg (by simp [jceil_zero]),
      if_neg (jceil_not_pos (div_nonpos_iff.mpr (Or.inr ⟨hs.le, by norm_num⟩)))]

/-- The per-formula quantity branch of the engine agrees with the claim-side
table: the engine clamps the effective squares at 0, the table does not, but
the clamp can only matter when the table quantity is non-positive — in which
case neither emits a line. -/
theorem qty_branch_eq (m : RoofMeasurements) (f : String) (mk : ℚ → MaterialItem) :
    (if 0 < materialFormulaQty m f then some (mk (materialFormulaQty m f)) else none) =
      (specFormulaQty m f).bind (fun q => if 0 < q then some (mk q) else none) := by
  by_cases h1 : f = "roof_area_sq / 3"
  · subst h1
    have hv : materialFormulaQty m "roof_area_sq / 3" =
        jceil (effectiveSquaresMat m * 3) := by simp [materialFormulaQty]
    have hw : specFormulaQty m "roof_area_sq / 3" =
        some (jceil (specEffectiveSquares m * 3)) := by simp [specFormulaQty]
    rw [hv, hw, Option.some_bind]
    exact eff_branch_mul3 m mk
  by_cases h2 : f = "hip_ridge_lf / 30"
  · subst h2
    have hv : materialFormulaQty m "hip_ridge_lf / 30" =
        jceil ((m.hipsLength + m.ridgesLength) / 30) := by simp [materialFormulaQty]
    have hw : specFormulaQty m "hip_ridge_lf / 30" =
        some (jceil ((m.hipsLength + m.ridgesLength) / 30)) := by simp [specFormulaQty]
    rw [hv, hw, Option.some_bind]
  by_cases h3 : f = "ridge_lf / 4"
  · subst h3
    have hv : materialFormulaQty m "ridge_lf / 4" =
        jceil (m.ridgesLength / 4) := by simp [materialFormulaQty]
    have hw : specFormulaQty m "ridge_lf / 4" =
        some (jceil (m.ridgesLength / 4)) := by simp [specFormulaQty]
    rw [hv, hw, Option.some_bind]
  by_cases h4 : f = "roof_area_sq / 10"
  · subst h4
    have hv : materialFormulaQty m "roof_area_sq / 10" =
        jceil (effectiveSquaresMat m / 10) := by simp [materialFormulaQty]
    have hw : specFormulaQty m "roof_area_sq / 10" =
        some (jceil (specEffectiveSquares m / 10)) := by simp [specFormulaQty]
    rw [hv, hw, Option.some_bind]
    exact eff_branch_div10 m mk
  by_cases h5 : f = "(eaves_lf + rakes_lf) / 100"
  · subst h5
    have hv : materialFormulaQty m "(eaves_lf + rakes_lf) / 100" =
        jceil ((m.eavesLength + m.rakesLength) / 100) := by simp [materialFormulaQty]
    have hw : specFormulaQty m "(eaves_lf + rakes_lf) / 100" =
        some (jceil ((m.eavesLength + m.rakesLength) / 100)) := by simp [specFormulaQty]
    rw [hv, hw, Option.some_bind]
  by_cases h6 : f = "(eaves_lf + rakes_lf) / 10"
  · subst h6
    have hv : materialFormulaQty m "(eaves_lf + rakes_lf) / 10" =
        jceil ((m.eavesLength + m.rakesLength) / 10 + 5) := by simp [materialFormulaQty]
    have hw : specFormulaQty m "(eaves_lf + rakes_lf) / 10" =
        some (jceil ((m.eavesLength + m.rakesLength) / 10 + 5)) := by simp [specFormulaQty]
    rw [hv, hw, Option.some_bind]
  by_cases h7 : f = "valleys_lf / 66"
  · subst h7
    have hv : materialFormulaQty m "valleys_lf / 66" =
        jceil (m.valleysLength / 66) := by simp [materialFormulaQty]
    have hw : specFormulaQty m "valleys_lf / 66" =
        some (jceil (m.valleysLength / 66)) := by simp [specFormulaQty]
    rw [hv, hw, Option.some_bind]
  by_cases h8 : f = "roof_area_sq / 15"
  · subst h8
    have hv : materialFormulaQty m "roof_area_sq / 15" =
        jceil (effectiveSquaresMat m / 15) := by simp [materialFormulaQty]
    have hw : specFormulaQty m "roof_area_sq / 15" =
        some (jceil (specEffectiveSquares m / 15)) := by simp [specFormulaQty]
    rw [hv, hw, Option.some_bind]
    exact eff_branch_div15 m mk
  by_cases h9 : f = "low_pitch_area_sq"
  · subst h9
    have hv : materialFormulaQty m "low_pitch_area_sq" =
        jceil m.lowPitchArea := by simp [materialFormulaQty]
    have hw : specFormulaQty m "low_pitch_area_sq" =
        some (jceil m.lowPitchArea) := by simp [specFormulaQty]
    rw [hv, hw, Option.some_bind]
  by_cases h10 : f = "low_pitch_area_sq / 2"
  · subst h10
    have hv : materialFormulaQty m "low_pitch_area_sq / 2" =
        jceil (m.lowPitchArea / 2) := by simp [materialFormulaQty]
    have hw : specFormulaQty m "low_pitch_area_sq / 2" =
        some (jceil (m.lowPitchArea / 2)) := by simp [specFormulaQty]
    rw [hv, hw, Option.some_bind]
  · have hv : materialFormulaQty m f = 0 := by
      simp [materialFormulaQty, h1, h2, h3, h4, h5, h6, h7, h8, h9, h10]
    have hw : specFormulaQty m f = none := by
      simp [specFormulaQty, h1, h2, h3, h4, h5, h6, h7, h8, h9, h10]
    rw [hv, hw, Option.none_bind, if_neg (lt_irrefl 0)]

/-- The loop body agrees with the claim-side line. -/
theorem ruleLine_eq_spec (m : RoofMeasurements) (rule : MaterialOrderRule) :
    ruleLine m rule = specRuleLine m rule := by
  simp only [ruleLine, specRuleLine]
  split
  · rfl
  · exact qty_branch_eq m rule.quantityFormula (fun q =>
      { id := rule.id, itemName := rule.materialName,
        unitOfMeasure := rule.unitOfMeasure, pricePerUnit := 0,
        category := rule.category, quantity := q, totalCost := 0 })

/-- Claim C1 (as amended): `calculateMaterialQuantities` emits, per rule in
order, exactly one line when the rule's recognized formula yields a positive
table quantity — except that a rule whose material name matches the
ridge-vent pattern is skipped entirely when the ridge-vent flag is unset;
unrecognized identifiers and non-positive quantities yield no line. -/
theorem claim_C1 (m : RoofMeasurements) (rules : List MaterialOrderRule) :
    calculateMaterialQuantities m rules = rules.filterMap (specRuleLine m) := by
  rw [calculateMaterialQuantities]
  have hfun : ruleLine m = specRuleLine m := funext (ruleLine_eq_spec m)
  rw [hfun]

/-- A ten-square measurement set with the ridge-vent flag unset. -/
def mTen : RoofMeasurements := { roofArea := 10 }

/-- A ridge-vent-named rule with the shingle-bundle formula. -/
def ruleRV3 : MaterialOrderRule :=
  { id := "rv", materialName := "Ridge Vent", unitOfMeasure := "pc",
    quantityFormula := "roof_area_sq / 3" }

/-- Counterexample to C1 as stated: the rule's recognized formula yields the
positive quantity 30, yet no line is emitted, because the rule's material
name matches the ridge-vent pattern and the flag is unset. -/
theorem claim_C1_counterexample :
    calculateMaterialQuantities mTen [ruleRV3] = [] ∧
      materialFormulaQty mTen "roof_area_sq / 3" = 30 :=
  ⟨by decide, by decide⟩

/-! ### Claim C5 -/

theorem jceil_div_pos_iff (r : ℚ) (c : ℚ) (hc : 0 < c) :
    0 < jceil (r / c) ↔ 0 < r := by
  rw [jceil_pos, div_pos_iff]
  constructor
  · rintro (⟨h, _⟩ | ⟨_, h⟩)
    · exact h
    · exact absurd hc (not_lt.mpr h.le)
  · intro h
    exact Or.inl ⟨h, hc⟩

/-- Claim C5 (as amended): for a single rule carrying the `ridge_lf / 4`
formula, a line is present iff the ridges length is positive AND (the rule's
material name matches the ridge-vent pattern → the ridge-vent flag is set).
The engine's gate is the material-name pattern, not the formula identifier:
a `ridge_lf / 4` rule whose name does not say "ridge vent" is emitted even
with the flag unset. -/
theorem claim_C5 (m : RoofMeasurements) (rule : MaterialOrderRule)
    (hf : rule.quantityFormula = "ridge_lf / 4") :
    calculateMaterialQuantities m [rule] ≠ [] ↔
      ((isRidgeVentName (toLowerStr rule.materialName) = true →
        m.hasRidgeVent.getD false = true) ∧ 0 < m.ridgesLength) := by
  have hsingle : calculateMaterialQuantities m [rule] = (ruleLine m rule).toList := by
    cases h : ruleLine m rule <;> simp [calculateMaterialQuantities, h]
  rw [hsingle]
  simp only [ruleLine, hf]
  by_cases hg : (isRidgeVentName (toLowerStr rule.materialName) &&
      !m.hasRidgeVent.getD false) = true
  · rw [if_pos hg]
    rw [Bool.and_eq_true, Bool.not_eq_true'] at hg
    constructor
    · intro hne
      exact absurd rfl hne
    · rintro ⟨himp, _⟩
      rw [himp hg.1] at hg
      exact absurd hg.2 (by decide)
  · rw [if_neg hg]
    rw [Bool.and_eq_true, Bool.not_eq_true'] at hg
    push_neg at hg
    have hv : materialFormulaQty m "ridge_lf / 4" = jceil (m.ridgesLength / 4) := by
      simp [materialFormulaQty]
    constructor
    · intro hne
      refine ⟨fun hrv => Bool.ne_false_iff.mp (hg hrv), ?_⟩
      by_cases hq : 0 < materialFormulaQty m "ridge_lf / 4"
      · rw [hv, jceil_div_pos_iff _ _ (by norm_num)] at hq
        exact hq
      · rw [if_neg hq] at hne
        exact absurd rfl hne
    · rintro ⟨_, hr⟩
      have hq : 0 < materialFormulaQty m "ridge_lf / 4" := by
        rw [hv, jceil_div_pos_iff _ _ (by norm_num)]
        exact hr
      rw [if_pos hq]
      simp

/-- Measurements with ridges but the ridge-vent flag explicitly false. -/
def mRVoff : RoofMeasurements :=
  { roofArea := 10, ridgesLength := 4, hasRidgeVent := some false }

/-- A `ridge_lf / 4` rule whose name does not mention a ridge vent. -/
def ruleRL4 : MaterialOrderRule :=
  { id := "rl4", materialName := "Metal Cap", unitOfMeasure := "pc",
    quantityFormula := "ridge_lf / 4" }

/-- Counterexample to C5 as stated: a `ridge_lf / 4` line is present (quantity
1) although the ridge-vent flag is false — the engine gates on the material
NAME pattern, not on the formula. -/
theorem claim_C5_counterexample :
    (calculateMaterialQuantities mRVoff [ruleRL4]).map (fun it => it.quantity) = [1] ∧
      mRVoff.hasRidgeVent = some false :=
  ⟨by decide, by decide⟩

/-- Measurements with ridges and the ridge-vent flag set. -/
def mRVon : RoofMeasurements :=
  { roofArea := 10, ridgesLength := 4, hasRidgeVent := some true }

/-- A ridge-vent rule with the `ridge_lf / 4` formula. -/
def ruleRV4 : MaterialOrderRule :=
  { id := "rv4", materialName := "Ridge Vent", unitOfMeasure := "pc",
    quantityFormula := "ridge_lf / 4" }

/-- Witness for C5 at a concrete input: with the flag set and ridges positive,
the ridge-vent rule's line is present. -/
theorem claim_C5_witness :
    calculateMaterialQuantities mRVon [ruleRV4] ≠ [] :=
  (claim_C5 mRVon ruleRV4 rfl).mpr ⟨fun _ => by decide, by decide⟩

/-! ### Claim C4 -/

theorem scoreEntry_nonneg (mName mUnit mCat : String) (p : PriceInput) :
    0 ≤ scoreEntry mName mUnit mCat p := by
  simp only [scoreEntry]
  split_ifs <;> norm_num

/-- Characterization of the best-score fold: starting from `(ob, b)`, either
no entry beats `b` and the accumulator is returned unchanged, or the result
is the first entry attaining the strictly highest score: every earlier entry
scores strictly lower, every later entry scores no higher. -/
theorem foldBest_char (mName mUnit mCat : String) (ps : List PriceInput) :
    ∀ (ob : Option ℚ) (b : Int),
      (ps.foldl (fun acc p =>
          let score := scoreEntry mName mUnit mCat p
          if score > acc.2 then (some p.pricePerUnit, score) else acc) (ob, b) = (ob, b) ∧
        ∀ p ∈ ps, scoreEntry mName mUnit mCat p ≤ b) ∨
      (∃ pre pj post, ps = pre ++ pj :: post ∧
        ps.foldl (fun acc p =>
          let score := scoreEntry mName mUnit mCat p
          if score > acc.2 then (some p.pricePerUnit, score) else acc) (ob, b) =
            (some pj.pricePerUnit, scoreEntry mName mUnit mCat pj) ∧
        b < scoreEntry mName mUnit mCat pj ∧
        (∀ q ∈ pre, scoreEntry mName mUnit mCat q < scoreEntry mName mUnit mCat pj) ∧
        (∀ q ∈ post, scoreEntry mName mUnit mCat q ≤ scoreEntry mName mUnit mCat pj)) := by
  induction ps with
  | nil =>
    intro ob b
    left
    exact ⟨rfl, by simp⟩
  | cons p rest ih =>
    intro ob b
    rw [List.foldl_cons]
    dsimp only
    by_cases hsp : b < scoreEntry mName mUnit mCat p
    · rw [if_pos hsp]
      rcases ih (some p.pricePerUnit) (scoreEntry mName mUnit mCat p) with
        ⟨heq, hall⟩ | ⟨pre, pj, post, hsplit, heq, hb, hpre, hpost⟩
      · right
        exact ⟨[], p, rest, rfl, heq, hsp, by simp, hall⟩
      · right
        refine ⟨p :: pre, pj, post, by rw [hsplit]; rfl, heq, lt_trans hsp hb, ?_, hpost⟩
        intro q hq
        rcases List.mem_cons.mp hq with hq | hq
        · rw [hq]
          exact hb
        · exact hpre q hq
    · rw [if_neg hsp]
      rcases ih ob b with ⟨heq, hall⟩ | ⟨pre, pj, post, hsplit, heq, hb, hpre, hpost⟩
      · left
        refine ⟨heq, ?_⟩
        intro q hq
        rcases List.mem_cons.mp hq with hq | hq
        · rw [hq]
          exact not_lt.mp hsp
        · exact hall q hq
      · right
        refine ⟨p :: pre, pj, post, by rw [hsplit]; rfl, heq, hb, ?_, hpost⟩
        intro q hq
        rcases List.mem_cons.mp hq with hq | hq
        · rw [hq]
          exact lt_of_le_of_lt (not_lt.mp hsp) hb
        · exact hpre q hq

/-- On a non-empty catalog the fold always selects the first entry attaining
the strictly highest score — even when that score is 0 (no match), because
`bestScore` starts at −1 and every score is ≥ 0. -/
theorem resolveFold_spec (mName mUnit mCat : String) (ps : List PriceInput)
    (hne : ps ≠ []) :
    ∃ pre pj post, ps = pre ++ pj :: post ∧
      resolveFold mName mUnit mCat ps =
        (some pj.pricePerUnit, scoreEntry mName mUnit mCat pj) ∧
      (∀ q ∈ pre, scoreEntry mName mUnit mCat q < scoreEntry mName mUnit mCat pj) ∧
      (∀ q ∈ post, scoreEntry mName mUnit mCat q ≤ scoreEntry mName mUnit mCat pj) := by
  rcases foldBest_char mName mUnit mCat ps none (-1) with
    ⟨_, hall⟩ | ⟨pre, pj, post, hsplit, heq, _, hpre, hpost⟩
  · obtain ⟨p, hp⟩ := List.exists_mem_of_ne_nil ps hne
    have h1 := hall p hp
    have h2 := scoreEntry_nonneg mName mUnit mCat p
    omega
  · exact ⟨pre, pj, post, hsplit, heq, hpre, hpost⟩

/-- Claim C4 (as amended): for an unpriced material, the resolver keeps the
first-seen entry attaining the strictly highest score, including a score of
0; with an empty catalog the price and cost are 0, but with a non-empty
catalog in which nothing matches, the FIRST entry's price is applied (not 0).
Resolution is total — it never fails. -/
theorem claim_C4 (mat : MaterialItem) (prices : List PriceInput)
    (hp : mat.pricePerUnit = 0) :
    applyMaterialPrices [mat] prices = [applyPriceTo prices mat] ∧
    (prices = [] → (applyPriceTo prices mat).pricePerUnit = 0 ∧
      (applyPriceTo prices mat).totalCost = 0) ∧
    (prices ≠ [] → ∃ pre pj post, prices = pre ++ pj :: post ∧
      (applyPriceTo prices mat).pricePerUnit = jsOr pj.pricePerUnit 0 ∧
      (applyPriceTo prices mat).totalCost = mat.quantity * jsOr pj.pricePerUnit 0 ∧
      (∀ q ∈ pre, scoreEntry (normName mat.itemName) (normUnit mat.unitOfMeasure)
          (toLowerStr mat.category) q <
        scoreEntry (normName mat.itemName) (normUnit mat.unitOfMeasure)
          (toLowerStr mat.category) pj) ∧
      (∀ q ∈ post, scoreEntry (normName mat.itemName) (normUnit mat.unitOfMeasure)
          (toLowerStr mat.category) q ≤
        scoreEntry (normName mat.itemName) (normUnit mat.unitOfMeasure)
          (toLowerStr mat.category) pj)) := by
  have hcond : ¬ (jsOr mat.pricePerUnit 0 > 0) := by
    rw [hp]
    norm_num [jsOr]
  have happ : applyPriceTo prices mat =
      { mat with
        pricePerUnit := jsOrOpt (resolveFold (normName mat.itemName)
          (normUnit mat.unitOfMeasure) (toLowerStr mat.category) prices).1 0,
        totalCost := mat.quantity * jsOrOpt (resolveFold (normName mat.itemName)
          (normUnit mat.unitOfMeasure) (toLowerStr mat.category) prices).1 0 } := by
    unfold applyPriceTo
    rw [if_neg hcond]
  refine ⟨rfl, ?_, ?_⟩
  · intro hnil
    subst hnil
    rw [happ]
    exact ⟨rfl, by simp [resolveFold, jsOrOpt]⟩
  · intro hne
    obtain ⟨pre, pj, post, hsplit, heq, hpre, hpost⟩ :=
      resolveFold_spec (normName mat.itemName) (normUnit mat.unitOfMeasure)
        (toLowerStr mat.category) prices hne
    refine ⟨pre, pj, post, hsplit, ?_, ?_, hpre, hpost⟩
    · rw [happ]
      simp only [heq]
      rfl
    · rw [happ]
      simp only [heq]
      rfl

/-- An unpriced material that matches nothing in the catalog below. -/
def matAbc : MaterialItem :=
  { id := "m", itemName := "abc", unitOfMeasure := "ea", pricePerUnit := 0,
    category := "x", quantity := 2, totalCost := 0 }

/-- A catalog entry unrelated to `matAbc` (score 0 on every criterion). -/
def prZzz : PriceInput :=
  { itemName := "zzz", pricePerUnit := 7, unitOfMeasure := some "rl",
    category := some "y" }

/-- Counterexample to C4 as stated: no catalog entry matches the material
name (the only entry scores 0), yet the resolved unit price is that entry's
price 7 and the cost 14 — not 0 as the claim requires. -/
theorem claim_C4_counterexample :
    scoreEntry (normName matAbc.itemName) (normUnit matAbc.unitOfMeasure)
        (toLowerStr matAbc.category) prZzz = 0 ∧
      (applyMaterialPrices [matAbc] [prZzz]).map (fun it => it.pricePerUnit) = [7] ∧
      (applyMaterialPrices [matAbc] [prZzz]).map (fun it => it.totalCost) = [14] :=
  ⟨by decide, by decide, by decide⟩

/-- Witness for C4 at a concrete input: with an empty catalog the price and
cost resolve to 0. -/
theorem claim_C4_witness :
    (applyPriceTo [] matAbc).pricePerUnit = 0 ∧ (applyPriceTo [] matAbc).totalCost = 0 :=
  (claim_C4 matAbc [] rfl).2.1 rfl

/-! ### Claim C8 -/

/-- Claim C8 (code bug in the source): because the `norm` regexes are written
with doubled backslashes, periods are NOT removed and whitespace runs are NOT
collapsed.  On the input `"A.B  C."` the normalizer merely lowercases: the
output still contains a period and two consecutive spaces, contradicting the
documented normalization. -/
theorem claim_C8 :
    normName "A.B  C." = "a.b  c." ∧
      '.' ∈ (normName "A.B  C.").data ∧
      isSubstring [' ', ' '] (normName "A.B  C.").data = true :=
  ⟨by decide, by decide, by decide⟩

/-! ### Claim C6 -/

/-- Claim-side merged figure: round each structure up independently, then sum. -/
def specSumOfCeils (sqs : List ℚ) : ℚ := (sqs.map jceil).sum

theorem sumSquares_foldl (l : List EagleViewStructure) (a : ℚ) :
    l.foldl (fun acc s => acc + sumSquares s) a =
      a + specSumOfCeils (l.map structSquaresRaw) := by
  induction l generalizing a with
  | nil => simp [specSumOfCeils]
  | cons s rest ih =>
    rw [List.foldl_cons, ih]
    simp [specSumOfCeils, sumSquares, jsOr_zero]
    ring

/-- Claim C6 (as amended): both merge paths compute the suggested squares as
the sum of per-structure ceilings (never the ceiling of the un-rounded sum);
in `getSelectedMeasurements` the per-structure figure is the suggested or
derived squares, while in `getCombinedMeasurements` structure 1 falls back to
the report-level suggested figure (or 0) without derivation. -/
theorem claim_C6 (d : ParserOutput) (s1 s2 : EagleViewStructure)
    (h1 : getStructure1 d = some s1) (h2 : getStructure2 d = some s2) :
    ((getCombinedMeasurements d).suggested_squares =
      specSumOfCeils [combS1Squares d s1, structSquaresRaw s2]) ∧
    (∀ i2 i3, (selStructs d s1 i2 i3).length ≠ 1 →
      (getSelectedMeasurements d i2 i3).suggested_squares =
        specSumOfCeils ((selStructs d s1 i2 i3).map structSquaresRaw)) := by
  constructor
  · simp [getCombinedMeasurements, h1, h2, specSumOfCeils, jsOr_zero]
  · intro i2 i3 hlen
    simp only [getSelectedMeasurements, h1]
    rw [if_neg hlen]
    rw [sumSquares_foldl]
    simp

/-- A 1.2-square waste figure. -/
def wSixth : EagleViewWaste :=
  { waste_percent := 20, area_sqft := 120, squares := 6/5, is_suggested := true }

def sOne : EagleViewStructure := { structure_number := 1, suggested_waste := some wSixth }

def sTwo : EagleViewStructure := { structure_number := 2, suggested_waste := some wSixth }

/-- A two-structure report, 1.2 suggested squares each. -/
def dPair : ParserOutput := { structures := [sOne, sTwo] }

/-- Witness for C6 on the concrete pair: per-structure rounding gives
⌈1.2⌉ + ⌈1.2⌉ = 4 while the ceiling of the sum would be ⌈2.4⌉ = 3. -/
theorem claim_C6_witness :
    ((getCombinedMeasurements dPair).suggested_squares =
      specSumOfCeils [combS1Squares dPair sOne, structSquaresRaw sTwo]) ∧
      (getCombinedMeasurements dPair).suggested_squares = 4 ∧
      jceil (6/5 + 6/5) = 3 :=
  ⟨(claim_C6 dPair sOne sTwo (by decide) (by decide)).1, by decide, by decide⟩

/-- Structure 1 of a report with no suggested-waste figure anywhere. -/
def sNoWaste : EagleViewStructure :=
  { structure_number := 1, total_area_sqft := 300, predominant_pitch := "6/12" }

/-- A two-structure report whose first structure has no suggested waste. -/
def dMixed : ParserOutput := { structures := [sNoWaste, sTwo] }

/-- Counterexample to C6 as stated: `getCombinedMeasurements` yields
⌈0⌉ + ⌈1.2⌉ = 2 here, while the sum of per-structure ceilings of the
suggested-or-derived squares is ⌈3.36⌉ + ⌈1.2⌉ = 6 — structure 1 never gets
the derived fallback in this path. -/
theorem claim_C6_counterexample :
    (getCombinedMeasurements dMixed).suggested_squares = 2 ∧
      jceil (structSquaresRaw sNoWaste) + jceil (structSquaresRaw sTwo) = 6 :=
  ⟨by decide, by decide⟩

/-- Counterexample to C3 as stated: with an empty rate catalog the output is
only the base dump-fee line — no `Standard Install` line is emitted at a
default rate; the fallback covers only the rate, not the line. -/
theorem claim_C3_counterexample :
    calculateLaborCosts mSq29 [] = [baseDumpLine []] ∧
      (calculateLaborCosts mSq29 []).filter
        (fun it => it.conditionType == "Standard Install") = [] :=
  ⟨by decide, by decide⟩
